import Mathlib

/-!
Verification of the LifeLine-ICT notification dispatch-and-retry engine.

Shallow embedding of:
- src/backend/app/models/notification.py        (Notification model, enums)
- src/backend/app/repositories/notification_repository.py
- src/backend/app/services/notification_service.py
- src/backend/app/services/sms_service.py       (phone normalization)

Modelling conventions:
- The relational store is a list of rows plus an id counter (`Store`).
  SQLAlchemy's `session.get` on an id is `List.find?` over the rows; the
  identity-map behaviour (the service object reflecting repository updates)
  is modelled by re-reading the row from the store after each update.
- Timestamps (`datetime.utcnow()`) are opaque `Nat` values passed in.
- The priority column is stored, as SQLAlchemy stores a Python `Enum` on
  the configured SQLite backend, as the member NAME string
  ("LOW"/"MEDIUM"/"HIGH"/"URGENT"); `ORDER BY priority DESC` compares those
  strings under SQLite's BINARY collation, embedded here as `strLtB`.
- `context_data` is kept as an opaque value standing for the Python dict.
  The service passes the pydantic `Dict` UNSERIALIZED into the `Text`
  column (nothing calls json.dumps), so whenever `context_data` is
  present, `AsyncRepository.create` raises at `session.flush()` — the
  DBAPI cannot bind a dict — and the embedded `Store.create` returns
  `none` for exactly that case.
- `NotificationCreate` (pydantic) enforces `max_length=255` on
  recipient/subject/template_name, while `NotificationRequest` does not;
  an oversized field therefore raises a ValidationError inside
  send_notification's `try`, before any store call
  (`createSchemaRejects`).
- Channel/renderer behaviour is a parameter: a delivery attempt either
  returns a boolean or raises an exception (`ChannelResult`); the service's
  blanket `except` blocks in `_send_notification_async`/`_send_email`/
  `_send_sms` turn a raise into `False`.
- Store-layer (persistence) failures are injected per operation
  (`StoreOp`): the failing operation raises before its commit, the
  surrounding transaction is rolled back (`session_scope` in
  core/database.py rolls back on error and `create` only flushes, the
  commits live in the `mark_*` repository methods), and the service's
  outer `except` converts the raise into a `None` result.
-/

namespace LifeLineICT

/-- NotificationType from models/notification.py. -/
inductive NotificationType
  | email
  | sms
deriving DecidableEq, Repr

/-- NotificationStatus from models/notification.py. -/
inductive NotificationStatus
  | pending
  | sent
  | delivered
  | failed
  | retrying
deriving DecidableEq, Repr

/-- NotificationPriority from models/notification.py. -/
inductive NotificationPriority
  | low
  | medium
  | high
  | urgent
deriving DecidableEq, Repr

/-- One row of the notifications table (models/notification.py).
`created_at` comes from TimestampMixin; `updated_at` is not modelled (no
claim mentions it). -/
structure Notification where
  id : Nat
  notification_type : NotificationType
  recipient : String
  subject : Option String
  message : String
  status : NotificationStatus
  priority : NotificationPriority
  retry_count : Nat
  max_retries : Nat
  sent_at : Option Nat
  delivered_at : Option Nat
  failed_at : Option Nat
  error_message : Option String
  template_name : Option String
  context_data : Option String
  user_id : Option Int
  alert_id : Option Int
  maintenance_ticket_id : Option Int
  created_at : Nat
deriving DecidableEq, Repr

/-- The notifications table plus the autoincrement id counter. -/
structure Store where
  rows : List Notification
  next_id : Nat
deriving DecidableEq, Repr

/-- Primary-key lookup (AsyncRepository.get / session.get). -/
def Store.get (st : Store) (id : Nat) : Option Notification :=
  st.rows.find? (fun n => n.id == id)

/-- Read-modify-write of the single row with the given id; a no-op when the
id is absent, matching the `if notification:` guards in the repository. -/
def Store.updateRow (st : Store) (id : Nat) (f : Notification → Notification) : Store :=
  { st with rows := st.rows.map fun n => if n.id == id then f n else n }

/-- A store is well formed when every row id is below the id counter. -/
def Store.wf (st : Store) : Prop :=
  ∀ n ∈ st.rows, n.id < st.next_id

/-- The empty notifications table. -/
def emptyStore : Store := { rows := [], next_id := 1 }

/-- Row transform of mark_notification_sent (repository lines 215-226):
sets only `status` and `sent_at`. -/
def markSentRow (t : Nat) (n : Notification) : Notification :=
  { n with status := .sent, sent_at := some t }

/-- Row transform of mark_notification_failed (repository lines 241-255):
sets `status`, `failed_at`, `error_message` AND also increments
`retry_count` (line 252 of the source). -/
def markFailedRow (err : String) (t : Nat) (n : Notification) : Notification :=
  { n with
    status := .failed
    failed_at := some t
    error_message := some err
    retry_count := n.retry_count + 1 }

/-- Row transform of increment_retry_count (repository lines 257-268):
increments `retry_count` and sets status RETRYING. -/
def incrementRetryRow (n : Notification) : Notification :=
  { n with retry_count := n.retry_count + 1, status := .retrying }

/-- mark_notification_sent of notification_repository.py. -/
def mark_notification_sent (st : Store) (id : Nat) (t : Nat) : Store :=
  st.updateRow id (markSentRow t)

/-- mark_notification_failed of notification_repository.py. -/
def mark_notification_failed (st : Store) (id : Nat) (err : String) (t : Nat) : Store :=
  st.updateRow id (markFailedRow err t)

/-- increment_retry_count of notification_repository.py. -/
def increment_retry_count (st : Store) (id : Nat) : Store :=
  st.updateRow id incrementRetryRow

/-- Stored string of a priority value: SQLAlchemy's Enum column stores the
Python enum member NAME on the default SQLite backend. -/
def priorityName : NotificationPriority → String
  | .low => "LOW"
  | .medium => "MEDIUM"
  | .high => "HIGH"
  | .urgent => "URGENT"

/-- Character list of the stored priority string, the value SQLite compares. -/
def prioKey (p : NotificationPriority) : List Char :=
  (priorityName p).data

/-- SQLite BINARY collation on TEXT values: lexicographic comparison of the
code units. -/
def strLtB : List Char → List Char → Bool
  | [], [] => false
  | [], _ :: _ => true
  | _ :: _, [] => false
  | a :: as, b :: bs =>
    if a.toNat < b.toNat then true
    else if b.toNat < a.toNat then false
    else strLtB as bs

/-- Eligibility filter of get_pending_notifications (repository lines
29-36): status PENDING, or status FAILED with retry_count < max_retries. -/
def eligibleForRetry (n : Notification) : Bool :=
  n.status == .pending || (n.status == .failed && n.retry_count < n.max_retries)

/-- The ORDER BY of get_pending_notifications (repository line 37):
priority column descending, created_at ascending.  `a` comes no later than
`b` when a's stored priority string is strictly greater, or the strings are
equal and a was created no later. -/
def pendingLe (a b : Notification) : Bool :=
  if prioKey a.priority = prioKey b.priority then a.created_at ≤ b.created_at
  else strLtB (prioKey b.priority) (prioKey a.priority)

/-- Propositional form of the row ordering, for List.insertionSort. -/
def pendingOrder (a b : Notification) : Prop := pendingLe a b = true

instance : DecidableRel pendingOrder :=
  fun a b => inferInstanceAs (Decidable (pendingLe a b = true))

/-- get_pending_notifications of notification_repository.py (lines 24-43):
filter, sort, and truncate only when the limit is positive. -/
def get_pending_notifications (st : Store) (limit : Int) : List Notification :=
  let sorted := List.insertionSort pendingOrder (st.rows.filter eligibleForRetry)
  if 0 < limit then sorted.take limit.toNat else sorted

/-- Result shape of get_notification_stats (repository lines 177-213). -/
structure StatsResult where
  total_notifications : Nat
  pending_count : Nat
  sent_count : Nat
  failed_count : Nat
  email_count : Nat
  sms_count : Nat
  retry_rate : ℚ

/-- get_notification_stats of notification_repository.py.  The rate is
`retry_count / total * 100` when total > 0 else 0; modelled in ℚ (at the
claim's instances, 3/10*100 and 0, Python's binary floating point yields
exactly the same values 30.0 and 0). -/
def get_notification_stats (st : Store) : StatsResult :=
  let total := st.rows.length
  let retried := (st.rows.filter (fun n => 0 < n.retry_count)).length
  { total_notifications := total
    pending_count := (st.rows.filter (fun n => n.status == .pending)).length
    sent_count := (st.rows.filter (fun n => n.status == .sent)).length
    failed_count := (st.rows.filter (fun n => n.status == .failed)).length
    email_count := (st.rows.filter (fun n => n.notification_type == .email)).length
    sms_count := (st.rows.filter (fun n => n.notification_type == .sms)).length
    retry_rate := if 0 < total then (retried : ℚ) / (total : ℚ) * 100 else 0 }

/-- Bool test that one character list starts with another. -/
def listStartsWith : List Char → List Char → Bool
  | [], _ => true
  | _ :: _, [] => false
  | p :: ps, c :: cs => p == c && listStartsWith ps cs

/-- _clean_phone_number of sms_service.py (lines 134-157): strip
non-digits, drop one leading zero, prepend the country code 256 when the
result is 9 digits not already starting with 256, accept when at least 10
characters remain.  (The source's `elif not cleaned.startswith('+')`
branch is a no-op, since '+' was already stripped as a non-digit.) -/
def cleanPhoneNumber (phone : String) : Option String :=
  let digits := phone.data.filter Char.isDigit
  let noZero := match digits with
    | '0' :: rest => rest
    | l => l
  let full :=
    if ¬ listStartsWith ['2', '5', '6'] noZero = true ∧ noZero.length = 9 then
      '2' :: '5' :: '6' :: noZero
    else noZero
  if 10 ≤ full.length then some (String.mk ('+' :: full)) else none

/-- Observable behaviour of one send_sms call: the boolean result and the
number passed to the provider, when the provider was contacted at all. -/
structure SmsSendTrace where
  result : Bool
  provider_called_with : Option String
deriving Repr

/-- send_sms of sms_service.py (lines 46-89): no client, or a number that
fails normalization, returns False locally; otherwise the provider is
called with the normalized number and the message. -/
def send_sms (hasClient : Bool) (provider : String → String → Bool)
    (to_number message : String) : SmsSendTrace :=
  if hasClient = false then { result := false, provider_called_with := none }
  else
    match cleanPhoneNumber to_number with
    | none => { result := false, provider_called_with := none }
    | some n => { result := provider n message, provider_called_with := some n }

/-- Modelled from the spec: a "valid international-format string" — a '+'
followed by at least 10 digits.  This is a spec-side predicate used only to
compare the code's normalization output against the spec's words. -/
def specValidInternational (s : String) : Bool :=
  match s.data with
  | '+' :: rest => rest.all Char.isDigit && 10 ≤ rest.length
  | _ => false

/-- NotificationRequest of schemas/notification.py (the validated request
the service receives). -/
structure NotificationRequest where
  notification_type : NotificationType
  recipient : String
  subject : Option String
  message : Option String
  template_name : Option String
  context_data : Option String
  priority : NotificationPriority
  user_id : Option Int
  alert_id : Option Int
  maintenance_ticket_id : Option Int
deriving DecidableEq, Repr

/-- The row created by NotificationService.send_notification (service
lines 43-56): model defaults status PENDING, retry_count 0, max_retries 3;
`message or ""`. -/
def newNotification (id : Nat) (req : NotificationRequest) (t : Nat) : Notification :=
  { id
    notification_type := req.notification_type
    recipient := req.recipient
    subject := req.subject
    message := req.message.getD ""
    status := .pending
    priority := req.priority
    retry_count := 0
    max_retries := 3
    sent_at := none
    delivered_at := none
    failed_at := none
    error_message := none
    template_name := req.template_name
    context_data := req.context_data
    user_id := req.user_id
    alert_id := req.alert_id
    maintenance_ticket_id := req.maintenance_ticket_id
    created_at := t }

/-- The pydantic validation of NotificationCreate (schemas/notification.py
lines 13-72): recipient, subject and template_name carry max_length=255
(NotificationRequest itself does not), so an oversized field raises a
ValidationError inside send_notification's try-block before any store
call. -/
def createSchemaRejects (req : NotificationRequest) : Bool :=
  255 < req.recipient.length ||
  (match req.subject with
   | some s => 255 < s.length
   | none => false) ||
  (match req.template_name with
   | some s => 255 < s.length
   | none => false)

/-- The store after a successful AsyncRepository.create: the new row
appended, the id counter bumped. -/
def Store.afterCreate (st : Store) (req : NotificationRequest) (t : Nat) : Store :=
  { rows := st.rows ++ [newNotification st.next_id req t], next_id := st.next_id + 1 }

/-- AsyncRepository.create as send_notification drives it.  The service
hands NotificationCreate(...).dict() to Notification(**data), so a present
context_data is the raw pydantic dict assigned to the Text column; the
DBAPI cannot bind it and session.flush() raises (none).  Otherwise the new
row is appended and returned. -/
def Store.create (st : Store) (req : NotificationRequest) (t : Nat) :
    Option (Store × Notification) :=
  if req.context_data.isSome then none
  else some (st.afterCreate req t, newNotification st.next_id req t)

/-- Outcome of one call into the channel/renderer layer
(email_service/sms_service via _send_email/_send_sms): a returned boolean
or a raised exception carrying a message. -/
inductive ChannelResult
  | ok (success : Bool)
  | exc (msg : String)
deriving DecidableEq, Repr

/-- _send_notification_async of notification_service.py (lines 265-278):
every exception from the channel/renderer is caught and becomes False. -/
def send_notification_async : ChannelResult → Bool
  | .ok b => b
  | .exc _ => false

/-- The store operations performed during one send, for injecting
persistence-layer failures. -/
inductive StoreOp
  | createOp
  | markSentOp
  | markFailedOp
deriving DecidableEq, Repr

/-- A store that never fails. -/
def noStoreFailure : StoreOp → Bool := fun _ => false

/-- send_notification of notification_service.py (lines 31-75).  The
try-block can die in three non-delivery ways, each caught by the outer
`except` and returned as None with nothing durable (create only flushes;
the commits are inside the mark_* methods; on the escaping error
session_scope rolls the transaction back): the pydantic
NotificationCreate rejection (`createSchemaRejects`), the deterministic
dict-to-Text bind error when context_data is present (`Store.create`
returns none), and an injected persistence failure (`failAt`).  Otherwise:
create the PENDING record, attempt delivery once, mark sent or mark
failed with the generic "Failed to send notification" text, and return
the (updated) record. -/
def sendNotification (failAt : StoreOp → Bool) (st : Store) (req : NotificationRequest)
    (ch : ChannelResult) (t : Nat) : Store × Option Notification :=
  if createSchemaRejects req then (st, none)
  else if failAt .createOp then (st, none)
  else
    match st.create req t with
    | none => (st, none)
    | some (st1, n0) =>
      if send_notification_async ch then
        if failAt .markSentOp then (st, none)
        else
          let st2 := mark_notification_sent st1 n0.id t
          (st2, st2.get n0.id)
      else
        if failAt .markFailedOp then (st, none)
        else
          let st2 := mark_notification_failed st1 n0.id "Failed to send notification" t
          (st2, st2.get n0.id)

/-- Body of the per-candidate loop of retry_failed_notifications (service
lines 114-139): increment_retry_count first, then re-attempt delivery on
the refreshed record (the session identity map makes the in-memory object
reflect the increment), then mark sent, or mark failed with "Max retries
exceeded" when the incremented retry_count has reached max_retries, else
with "Retry attempt failed". -/
def retryOne (deliver : Notification → ChannelResult) (t : Nat) (st : Store)
    (cand : Notification) : Store :=
  let st1 := increment_retry_count st cand.id
  match st1.get cand.id with
  | none => st1
  | some n =>
    if send_notification_async (deliver n) then
      mark_notification_sent st1 n.id t
    else if n.max_retries ≤ n.retry_count then
      mark_notification_failed st1 n.id "Max retries exceeded" t
    else
      mark_notification_failed st1 n.id "Retry attempt failed" t

/-- retry_failed_notifications of notification_service.py (lines 100-144):
fetch the candidates once via get_pending_notifications, process each in
order, and return every processed candidate (here by id). -/
def retry_failed_notifications (deliver : Notification → ChannelResult) (t : Nat)
    (st : Store) (limit : Int) : Store × List Nat :=
  let cands := get_pending_notifications st limit
  (cands.foldl (retryOne deliver t) st, cands.map (fun n => n.id))

/-- The request built for one (recipient, channel) pair by
send_alert_notification (service lines 220-241): the fixed
"alert_notification" template, priority HIGH, and `context=alert_data` —
alert_data is a Dict, so the request's context_data is ALWAYS present
(`some ctx`); email additionally gets the "ALERT: ..." subject. -/
def alertRequest (ty : NotificationType) (recipient : String)
    (alert_type : Option String) (ctx : String) (aid : Option Int) :
    NotificationRequest :=
  match ty with
  | .email =>
    { notification_type := .email
      recipient := recipient
      subject := some ("ALERT: " ++ alert_type.getD "System Alert")
      message := some ""
      template_name := some "alert_notification"
      context_data := some ctx
      priority := .high
      user_id := none
      alert_id := aid
      maintenance_ticket_id := none }
  | .sms =>
    { notification_type := .sms
      recipient := recipient
      subject := none
      message := some ""
      template_name := some "alert_notification"
      context_data := some ctx
      priority := .high
      user_id := none
      alert_id := aid
      maintenance_ticket_id := none }

/-- send_alert_notification of notification_service.py (lines 201-249):
for every recipient and every channel, send via send_notification; a pair
that produced a record contributes it to the returned list, a pair that
did not (its create raised; caught by the loop's try/except) is skipped
and the remaining pairs still run.  `ctx` is the alert_data dict, passed
to every pair.  `pairFail` gives each pair its own store failure injection
and `outcome` its own delivery outcome. -/
def send_alert_notification (pairFail : String → NotificationType → StoreOp → Bool)
    (outcome : String → NotificationType → ChannelResult) (st : Store)
    (alert_type : Option String) (ctx : String) (aid : Option Int)
    (recipients : List String) (ntypes : List NotificationType) (t : Nat) :
    Store × List Notification :=
  recipients.foldl
    (fun acc r =>
      ntypes.foldl
        (fun acc2 ty =>
          let out := sendNotification (pairFail r ty) acc2.1
            (alertRequest ty r alert_type ctx aid) (outcome r ty) t
          (out.1, acc2.2 ++ out.2.toList))
        acc)
    (st, [])

/-! Helper lemmas: the row ordering is total and transitive. -/

/-- Rank of a priority under the binary collation of the STORED name
strings: "HIGH" < "LOW" < "MEDIUM" < "URGENT". -/
def prioRank : NotificationPriority → Nat
  | .high => 0
  | .low => 1
  | .medium => 2
  | .urgent => 3

lemma strLtB_prio_iff (p q : NotificationPriority) :
    strLtB (prioKey p) (prioKey q) = true ↔ prioRank p < prioRank q := by
  cases p <;> cases q <;> decide

lemma prioKey_eq_iff (p q : NotificationPriority) :
    prioKey p = prioKey q ↔ prioRank p = prioRank q := by
  cases p <;> cases q <;> decide

lemma pendingLe_iff (a b : Notification) :
    pendingLe a b = true ↔
      (prioRank a.priority = prioRank b.priority ∧ a.created_at ≤ b.created_at)
        ∨ prioRank b.priority < prioRank a.priority := by
  unfold pendingLe
  by_cases h : prioKey a.priority = prioKey b.priority
  · have hr : prioRank a.priority = prioRank b.priority := (prioKey_eq_iff _ _).mp h
    rw [if_pos h]
    simp only [decide_eq_true_eq]
    omega
  · have hr : prioRank a.priority ≠ prioRank b.priority :=
      fun he => h ((prioKey_eq_iff _ _).mpr he)
    rw [if_neg h, strLtB_prio_iff]
    omega

instance : IsTotal Notification pendingOrder :=
  ⟨fun a b => by
    unfold pendingOrder
    rw [pendingLe_iff, pendingLe_iff]
    omega⟩

instance : IsTrans Notification pendingOrder :=
  ⟨fun a b c hab hbc => by
    unfold pendingOrder at hab hbc ⊢
    rw [pendingLe_iff] at hab hbc ⊢
    omega⟩

/-! Helper lemmas: store operations. -/

lemma find?_eq_none_of_ids_lt (rows : List Notification) (k : Nat)
    (h : ∀ n ∈ rows, n.id < k) :
    rows.find? (fun n => n.id == k) = none := by
  rw [List.find?_eq_none]
  intro x hx
  simp only [beq_iff_eq]
  exact Nat.ne_of_lt (h x hx)

lemma markSentRow_id (t : Nat) (n : Notification) : (markSentRow t n).id = n.id := rfl

lemma markFailedRow_id (e : String) (t : Nat) (n : Notification) :
    (markFailedRow e t n).id = n.id := rfl

lemma incrementRetryRow_id (n : Notification) : (incrementRetryRow n).id = n.id := rfl

lemma newNotification_id (id : Nat) (req : NotificationRequest) (t : Nat) :
    (newNotification id req t).id = id := rfl

lemma Store.create_some (st : Store) (req : NotificationRequest) (t : Nat)
    (hctx : req.context_data = none) :
    st.create req t = some (st.afterCreate req t, newNotification st.next_id req t) := by
  unfold Store.create
  rw [hctx]
  rfl

lemma Store.create_none (st : Store) (req : NotificationRequest) (t : Nat)
    (hctx : req.context_data.isSome = true) :
    st.create req t = none := by
  unfold Store.create
  rw [if_pos hctx]

lemma Store.get_afterCreate (st : Store) (req : NotificationRequest) (t : Nat) (hwf : st.wf) :
    (st.afterCreate req t).get st.next_id = some (newNotification st.next_id req t) := by
  unfold Store.afterCreate Store.get
  simp only
  rw [List.find?_append, find?_eq_none_of_ids_lt st.rows st.next_id hwf]
  simp [List.find?, newNotification]

lemma Store.get_afterCreate_isSome (st : Store) (req : NotificationRequest) (t : Nat) :
    ((st.afterCreate req t).get st.next_id).isSome = true := by
  unfold Store.afterCreate Store.get
  simp only
  rw [List.find?_append]
  cases h : st.rows.find? (fun n => n.id == st.next_id) <;>
    simp [List.find?, newNotification, h]

lemma Store.get_updateRow_self (st : Store) (id : Nat) (f : Notification → Notification)
    (hf : ∀ n, (f n).id = n.id) :
    (st.updateRow id f).get id = (st.get id).map f := by
  unfold Store.updateRow Store.get
  simp only
  rw [List.find?_map]
  have hp : ((fun n : Notification => n.id == id) ∘ fun n => if n.id == id then f n else n)
      = fun n => n.id == id := by
    funext n
    by_cases h : n.id = id
    · simp [h, hf]
    · simp [h]
  rw [hp]
  cases hfind : st.rows.find? (fun n => n.id == id) with
  | none => simp
  | some m =>
    have hm := List.find?_some hfind
    simp only [beq_iff_eq] at hm
    simp [hm]

lemma Store.wf_updateRow (st : Store) (id : Nat) (f : Notification → Notification)
    (hf : ∀ n, (f n).id = n.id) (hwf : st.wf) :
    (st.updateRow id f).wf := by
  intro n hn
  unfold Store.updateRow at hn ⊢
  simp only [List.mem_map] at hn
  obtain ⟨m, hm, rfl⟩ := hn
  have hid : (if m.id == id then f m else m).id = m.id := by
    by_cases h : m.id = id <;> simp [h, hf]
  rw [hid]
  exact hwf m hm

lemma Store.wf_afterCreate (st : Store) (req : NotificationRequest) (t : Nat) (hwf : st.wf) :
    (st.afterCreate req t).wf := by
  intro n hn
  unfold Store.afterCreate at hn ⊢
  simp only [List.mem_append, List.mem_singleton] at hn
  cases hn with
  | inl h => exact Nat.lt_succ_of_lt (hwf n h)
  | inr h =>
    subst h
    simp [newNotification]

/-- Workhorse: one send with a healthy store, a request the
NotificationCreate schema accepts and no context_data (so create does not
raise on the dict-to-Text bind) returns the created record; record fields
after the one delivery attempt. -/
lemma sendNotification_noFail (st : Store) (req : NotificationRequest)
    (ch : ChannelResult) (t : Nat) (hwf : st.wf)
    (hrej : createSchemaRejects req = false) (hctx : req.context_data = none) :
    ∃ r st', sendNotification noStoreFailure st req ch t = (st', some r) ∧ st'.wf ∧
      r.priority = req.priority ∧ r.template_name = req.template_name ∧
      r.notification_type = req.notification_type ∧ r.recipient = req.recipient ∧
      (send_notification_async ch = true →
        r.status = .sent ∧ r.sent_at = some t ∧ r.retry_count = 0) ∧
      (send_notification_async ch = false →
        r.status = .failed ∧ r.failed_at = some t ∧
        r.error_message = some "Failed to send notification" ∧ r.retry_count = 1) := by
  cases hch : send_notification_async ch with
  | true =>
    refine ⟨markSentRow t (newNotification st.next_id req t),
      mark_notification_sent (st.afterCreate req t) st.next_id t, ?_, ?_, ?_⟩
    · unfold sendNotification
      rw [Store.create_some st req t hctx, hrej, hch]
      simp only [Bool.false_eq_true, if_false, noStoreFailure, if_true]
      unfold mark_notification_sent
      rw [show (newNotification st.next_id req t).id = st.next_id from rfl,
        Store.get_updateRow_self _ _ _ (markSentRow_id t),
        Store.get_afterCreate st req t hwf]
      rfl
    · exact Store.wf_updateRow _ _ _ (markSentRow_id t) (Store.wf_afterCreate st req t hwf)
    · refine ⟨rfl, rfl, rfl, rfl, fun _ => ⟨rfl, rfl, rfl⟩, fun hc => ?_⟩
      simp at hc
  | false =>
    refine ⟨markFailedRow "Failed to send notification" t (newNotification st.next_id req t),
      mark_notification_failed (st.afterCreate req t) st.next_id
        "Failed to send notification" t, ?_, ?_, ?_⟩
    · unfold sendNotification
      rw [Store.create_some st req t hctx, hrej, hch]
      simp only [Bool.false_eq_true, if_false, noStoreFailure]
      unfold mark_notification_failed
      rw [show (newNotification st.next_id req t).id = st.next_id from rfl,
        Store.get_updateRow_self _ _ _ (markFailedRow_id _ t),
        Store.get_afterCreate st req t hwf]
      rfl
    · exact Store.wf_updateRow _ _ _ (markFailedRow_id _ t) (Store.wf_afterCreate st req t hwf)
    · refine ⟨rfl, rfl, rfl, rfl, fun hc => ?_, fun _ => ⟨rfl, rfl, rfl, rfl⟩⟩
      simp at hc

/-! Helper lemmas: when sendNotification returns no record. -/

lemma get_after_mark_isSome (st : Store) (req : NotificationRequest) (t : Nat)
    (f : Notification → Notification) (hf : ∀ n, (f n).id = n.id) :
    (((st.afterCreate req t).updateRow st.next_id f).get st.next_id).isSome = true := by
  rw [Store.get_updateRow_self _ _ _ hf]
  simpa using Store.get_afterCreate_isSome st req t

lemma sendNotification_none_iff (failAt : StoreOp → Bool) (st : Store)
    (req : NotificationRequest) (ch : ChannelResult) (t : Nat) :
    (sendNotification failAt st req ch t).2 = none ↔
      (createSchemaRejects req = true ∨ req.context_data.isSome = true ∨
        failAt .createOp = true ∨
        (send_notification_async ch = true ∧ failAt .markSentOp = true) ∨
        (send_notification_async ch = false ∧ failAt .markFailedOp = true)) := by
  cases hrej : createSchemaRejects req with
  | true => simp [sendNotification, hrej]
  | false =>
    cases h1 : failAt .createOp with
    | true => simp [sendNotification, hrej, h1]
    | false =>
      cases hctx : req.context_data with
      | some c => simp [sendNotification, Store.create, hrej, h1, hctx]
      | none =>
        cases hch : send_notification_async ch with
        | true =>
          cases h2 : failAt .markSentOp with
          | true =>
            simp [sendNotification, Store.create_some st req t hctx, hrej, hctx, h1, hch, h2]
          | false =>
            have hs := get_after_mark_isSome st req t (markSentRow t) (markSentRow_id t)
            obtain ⟨v, hv⟩ := Option.isSome_iff_exists.mp hs
            simp [sendNotification, Store.create_some st req t hctx, hrej, hctx, h1, hch, h2,
              mark_notification_sent, newNotification_id, hv]
        | false =>
          cases h3 : failAt .markFailedOp with
          | true =>
            simp [sendNotification, Store.create_some st req t hctx, hrej, hctx, h1, hch, h3]
          | false =>
            have hs := get_after_mark_isSome st req t
              (markFailedRow "Failed to send notification" t)
              (markFailedRow_id "Failed to send notification" t)
            obtain ⟨v, hv⟩ := Option.isSome_iff_exists.mp hs
            simp [sendNotification, Store.create_some st req t hctx, hrej, hctx, h1, hch, h3,
              mark_notification_failed, newNotification_id, hv]

lemma sendNotification_none_store_unchanged (failAt : StoreOp → Bool) (st : Store)
    (req : NotificationRequest) (ch : ChannelResult) (t : Nat)
    (h : (sendNotification failAt st req ch t).2 = none) :
    (sendNotification failAt st req ch t).1 = st := by
  cases hrej : createSchemaRejects req with
  | true => simp [sendNotification, hrej]
  | false =>
    cases h1 : failAt .createOp with
    | true => simp [sendNotification, hrej, h1]
    | false =>
      cases hctx : req.context_data with
      | some c => simp [sendNotification, Store.create, hrej, h1, hctx]
      | none =>
        cases hch : send_notification_async ch with
        | true =>
          cases h2 : failAt .markSentOp with
          | true =>
            simp [sendNotification, Store.create_some st req t hctx, hrej, h1, hch, h2]
          | false =>
            exfalso
            have hs := get_after_mark_isSome st req t (markSentRow t) (markSentRow_id t)
            obtain ⟨v, hv⟩ := Option.isSome_iff_exists.mp hs
            simp [sendNotification, Store.create_some st req t hctx, hrej, h1, hch, h2,
              mark_notification_sent, newNotification_id, hv] at h
        | false =>
          cases h3 : failAt .markFailedOp with
          | true =>
            simp [sendNotification, Store.create_some st req t hctx, hrej, h1, hch, h3]
          | false =>
            exfalso
            have hs := get_after_mark_isSome st req t
              (markFailedRow "Failed to send notification" t)
              (markFailedRow_id "Failed to send notification" t)
            obtain ⟨v, hv⟩ := Option.isSome_iff_exists.mp hs
            simp [sendNotification, Store.create_some st req t hctx, hrej, h1, hch, h3,
              mark_notification_failed, newNotification_id, hv] at h

/-! Concrete fixtures used by the claim theorems and witnesses. -/

/-- A notification row with the given id, status, priority, retry counters
and creation time; remaining fields fixed. -/
def mkNotif (id : Nat) (status : NotificationStatus) (priority : NotificationPriority)
    (rc maxr created : Nat) : Notification :=
  { id
    notification_type := .email
    recipient := "user@example.com"
    subject := none
    message := "message"
    status
    priority
    retry_count := rc
    max_retries := maxr
    sent_at := none
    delivered_at := none
    failed_at := none
    error_message := none
    template_name := none
    context_data := none
    user_id := none
    alert_id := none
    maintenance_ticket_id := none
    created_at := created }

/-- A plain, valid email send request. -/
def sampleRequest : NotificationRequest :=
  { notification_type := .email
    recipient := "user@example.com"
    subject := some "subject"
    message := some "hello"
    template_name := none
    context_data := none
    priority := .medium
    user_id := none
    alert_id := none
    maintenance_ticket_id := none }

lemma emptyStore_wf : emptyStore.wf :=
  fun n hn => absurd hn (List.not_mem_nil n)

/-- A store holding one freshly failed record (retry_count 0, max 3). -/
def c1Store : Store := { rows := [mkNotif 1 .failed .medium 0 3 0], next_id := 2 }

/-- Claim C1: a retry_failed pass increments the retry_count of every
picked-up record by exactly 1.  The code refutes this: the pass picks up
exactly record 1, the delivery fails again, and retry_count goes from 0 to
2 in the single pass (increment_retry_count adds 1, and the
mark_notification_failed it then calls adds another 1 at repository line
252). -/
theorem C1_retry_pass_double_increments :
    ((c1Store.get 1).map (fun n => n.retry_count) = some 0) ∧
    (retry_failed_notifications (fun _ => ChannelResult.ok false) 5 c1Store 10).2 = [1] ∧
    ((((retry_failed_notifications (fun _ => ChannelResult.ok false) 5 c1Store 10).1.get 1).map
        (fun n => n.retry_count)) = some 2) := by
  exact ⟨rfl, rfl, rfl⟩

/-- Claim C2: a valid send whose channel returns false yields a record
with status FAILED, failed_at set, a non-empty error_message — all of
which the code satisfies — and retry_count 0, which the code refutes:
mark_notification_failed increments retry_count, so the returned record
has retry_count 1. -/
theorem C2_failed_send_has_retry_count_one :
    ((sendNotification noStoreFailure emptyStore sampleRequest (ChannelResult.ok false) 5).2.map
        (fun r => (r.status, r.failed_at, r.error_message, r.retry_count)))
      = some (NotificationStatus.failed, some 5, some "Failed to send notification", 1) := by
  rfl

/-- A store holding the state the code itself produces right after the
initial failed send of a record with max_retries = 2 (so retry_count is
already 1, see C2). -/
def c3Store : Store :=
  { rows := [{ mkNotif 1 .failed .medium 1 2 0 with
      error_message := some "Failed to send notification", failed_at := some 0 }]
    next_id := 2 }

/-- Claim C3: a record with max_retries = N failing every attempt reaches
terminal FAILED exactly when retry_count = N.  The code refutes this for
N = 2: after the initial failure retry_count is already 1, and the single
retry pass takes it to 3 (increment to 2, then the terminal
mark_notification_failed adds one more), so the terminal record has
retry_count 3 ≠ 2.  The second conjunct confirms that, once FAILED with
retry_count ≥ max_retries, the record has dropped out of
get_pending_notifications. -/
theorem C3_retry_exhaustion_overshoots :
    (((retry_failed_notifications (fun _ => ChannelResult.ok false) 7 c3Store 10).1.get 1).map
        (fun n => (n.status, n.retry_count, n.max_retries, n.error_message)))
      = some (NotificationStatus.failed, 3, 2, some "Max retries exceeded") ∧
    get_pending_notifications
        (retry_failed_notifications (fun _ => ChannelResult.ok false) 7 c3Store 10).1 10
      = [] := by
  exact ⟨rfl, rfl⟩

/-- Claim C8: the SMS channel normalizes "0700000000" to a valid
international-format number before the provider call, and an input that
cannot be normalized ("abc") fails locally with no provider call. -/
theorem C8_sms_normalization (provider : String → String → Bool) (message : String) :
    cleanPhoneNumber "0700000000" = some "+256700000000" ∧
    specValidInternational "+256700000000" = true ∧
    send_sms true provider "0700000000" message
      = { result := provider "+256700000000" message
          provider_called_with := some "+256700000000" } ∧
    send_sms true provider "abc" message
      = { result := false, provider_called_with := none } := by
  have hclean : cleanPhoneNumber "0700000000" = some "+256700000000" := by decide
  have habc : cleanPhoneNumber "abc" = none := by decide
  refine ⟨hclean, by decide, ?_, ?_⟩
  · simp [send_sms, hclean]
  · simp [send_sms, habc]

/-- Ten records, exactly three of which have a positive retry_count. -/
def statsStore : Store :=
  { rows := (List.range 10).map
      (fun i => mkNotif i .sent .medium (if i < 3 then 1 else 0) 3 i)
    next_id := 10 }

/-- Claim C9: the stats aggregator computes retry_rate as
(records with retry_count > 0) / total * 100 — 30 for a 10-record store
with 3 retried records — and 0 over an empty store. -/
theorem C9_retry_rate (st : Store)
    (h10 : st.rows.length = 10)
    (h3 : (st.rows.filter (fun n => 0 < n.retry_count)).length = 3) :
    (get_notification_stats st).retry_rate = 30 ∧
    (get_notification_stats emptyStore).retry_rate = 0 := by
  constructor
  · have hval : (get_notification_stats st).retry_rate
        = if 0 < st.rows.length then
            ((st.rows.filter (fun n => 0 < n.retry_count)).length : ℚ)
              / (st.rows.length : ℚ) * 100
          else 0 := rfl
    rw [hval, h10, h3]
    norm_num
  · norm_num [get_notification_stats, emptyStore]

theorem C9_retry_rate_witness :
    statsStore.rows.length = 10 ∧
    (statsStore.rows.filter (fun n => 0 < n.retry_count)).length = 3 ∧
    ((get_notification_stats statsStore).retry_rate = 30 ∧
      (get_notification_stats emptyStore).retry_rate = 0) :=
  ⟨by decide, by decide, C9_retry_rate statsStore (by decide) (by decide)⟩

/-- Claim C10: mark_notification_sent updates only status and sent_at;
every row of the updated store corresponds to an original row with the
same error_message, failed_at, retry_count (and the other fields), the
targeted row now being SENT with sent_at set, all other rows unchanged. -/
theorem C10_mark_sent_preserves_failure_evidence (st : Store) (id t : Nat)
    (n : Notification) (hn : n ∈ (mark_notification_sent st id t).rows) :
    ∃ m, m ∈ st.rows ∧ m.id = n.id ∧
      n.error_message = m.error_message ∧ n.failed_at = m.failed_at ∧
      n.retry_count = m.retry_count ∧ n.delivered_at = m.delivered_at ∧
      n.recipient = m.recipient ∧ n.message = m.message ∧
      n.max_retries = m.max_retries ∧ n.priority = m.priority ∧
      (m.id = id → n.status = .sent ∧ n.sent_at = some t) ∧
      (m.id ≠ id → n = m) := by
  unfold mark_notification_sent Store.updateRow at hn
  simp only [List.mem_map] at hn
  obtain ⟨m, hm, rfl⟩ := hn
  by_cases h : m.id = id
  · have hred : (if m.id == id then markSentRow t m else m) = markSentRow t m := by
      simp [h]
    rw [hred]
    exact ⟨m, hm, rfl, rfl, rfl, rfl, rfl, rfl, rfl, rfl, rfl,
      fun _ => ⟨rfl, rfl⟩, fun hne => absurd h hne⟩
  · have hred : (if m.id == id then markSentRow t m else m) = m := by
      simp [h]
    rw [hred]
    exact ⟨m, hm, rfl, rfl, rfl, rfl, rfl, rfl, rfl, rfl, rfl,
      fun he => absurd he h, fun _ => rfl⟩

/-- A previously failed row carrying failure evidence. -/
def c10Row : Notification :=
  { mkNotif 1 .failed .medium 2 3 0 with
    error_message := some "Retry attempt failed", failed_at := some 4 }

def c10Store : Store := { rows := [c10Row], next_id := 2 }

theorem C10_mark_sent_preserves_failure_evidence_witness :
    (markSentRow 9 c10Row ∈ (mark_notification_sent c10Store 1 9).rows) ∧
    (∃ m, m ∈ c10Store.rows ∧ m.id = (markSentRow 9 c10Row).id ∧
      (markSentRow 9 c10Row).error_message = m.error_message ∧
      (markSentRow 9 c10Row).failed_at = m.failed_at ∧
      (markSentRow 9 c10Row).retry_count = m.retry_count ∧
      (markSentRow 9 c10Row).delivered_at = m.delivered_at ∧
      (markSentRow 9 c10Row).recipient = m.recipient ∧
      (markSentRow 9 c10Row).message = m.message ∧
      (markSentRow 9 c10Row).max_retries = m.max_retries ∧
      (markSentRow 9 c10Row).priority = m.priority ∧
      (m.id = 1 → (markSentRow 9 c10Row).status = .sent ∧
        (markSentRow 9 c10Row).sent_at = some 9) ∧
      (m.id ≠ 1 → markSentRow 9 c10Row = m)) :=
  ⟨by decide,
    C10_mark_sent_preserves_failure_evidence c10Store 1 9 (markSentRow 9 c10Row) (by decide)⟩

/-- An older PENDING record of priority HIGH and a newer one of MEDIUM. -/
def c4HighRow : Notification := mkNotif 1 .pending .high 0 3 0

def c4MediumRow : Notification := mkNotif 2 .pending .medium 0 3 1

def c4Store : Store := { rows := [c4HighRow, c4MediumRow], next_id := 3 }

/-- Claim C4 counterexample: the claim puts every HIGH record before every
MEDIUM one.  With the SQLite backend the column holds the enum NAME
strings and ORDER BY priority DESC is lexicographic on them, where
"MEDIUM" > "HIGH": both records are eligible, the HIGH one is older, yet
the MEDIUM one (id 2) is returned first. -/
theorem C4_priority_order_counterexample :
    c4HighRow.priority = .high ∧ c4MediumRow.priority = .medium ∧
    eligibleForRetry c4HighRow = true ∧ eligibleForRetry c4MediumRow = true ∧
    (get_pending_notifications c4Store 10).map (fun n => n.id) = [2, 1] := by
  exact ⟨rfl, rfl, rfl, rfl, by decide⟩

/-- Claim C4 (amended): get_pending_or_retryable(limit) returns exactly
the records whose status is PENDING, or FAILED with
retry_count < max_retries, ordered by the STORED priority string
descending — which under the default SQLite backend is lexicographic on
the enum names, i.e. URGENT, then MEDIUM, then LOW, then HIGH — and
within equal priority by creation time ascending (pendingOrder),
truncated to limit: when limit is positive the result has exactly
min(limit, number of eligible records) rows and every returned record
precedes, in that order, every eligible record the truncation cut; a
non-positive limit disables truncation (the source guards `.limit` with
`if limit > 0`) and every eligible record is returned. -/
theorem C4_pending_selection_amended (st : Store) (limit : Int) :
    (∀ n ∈ get_pending_notifications st limit, n ∈ st.rows ∧ eligibleForRetry n = true) ∧
    (get_pending_notifications st limit).length
      = (if 0 < limit then min limit.toNat (st.rows.filter eligibleForRetry).length
         else (st.rows.filter eligibleForRetry).length) ∧
    List.Pairwise pendingOrder (get_pending_notifications st limit) ∧
    (∀ n ∈ st.rows, eligibleForRetry n = true →
      (¬ 0 < limit ∨ (st.rows.filter eligibleForRetry).length ≤ limit.toNat) →
      n ∈ get_pending_notifications st limit) ∧
    (∀ n ∈ st.rows, eligibleForRetry n = true →
      n ∉ get_pending_notifications st limit →
      ∀ m ∈ get_pending_notifications st limit, pendingOrder m n) := by
  by_cases hl : 0 < limit
  · have hdef : get_pending_notifications st limit
        = (List.insertionSort pendingOrder (st.rows.filter eligibleForRetry)).take
            limit.toNat := by
      unfold get_pending_notifications
      rw [if_pos hl]
    refine ⟨?_, ?_, ?_, ?_, ?_⟩
    · intro n hn
      rw [hdef] at hn
      have h1 := List.take_subset _ _ hn
      have h2 := (List.mem_insertionSort pendingOrder).mp h1
      exact ⟨(List.mem_filter.mp h2).1, (List.mem_filter.mp h2).2⟩
    · rw [hdef, if_pos hl, List.length_take,
        (List.perm_insertionSort pendingOrder _).length_eq]
    · rw [hdef]
      exact List.Pairwise.sublist (List.take_sublist _ _)
        (List.sorted_insertionSort pendingOrder _)
    · intro n hn he hfit
      rcases hfit with hneg | hfit
      · exact absurd hl hneg
      · have hlen2 : (List.insertionSort pendingOrder
            (st.rows.filter eligibleForRetry)).length ≤ limit.toNat := by
          rw [(List.perm_insertionSort pendingOrder _).length_eq]
          exact hfit
        rw [hdef, List.take_of_length_le hlen2]
        exact (List.mem_insertionSort pendingOrder).mpr (List.mem_filter.mpr ⟨hn, he⟩)
    · intro n hn he hnot m hm
      rw [hdef] at hnot hm
      have hnsort : n ∈ List.insertionSort pendingOrder (st.rows.filter eligibleForRetry) :=
        (List.mem_insertionSort pendingOrder).mpr (List.mem_filter.mpr ⟨hn, he⟩)
      have hpair : List.Pairwise pendingOrder
          (List.insertionSort pendingOrder (st.rows.filter eligibleForRetry)) :=
        List.sorted_insertionSort pendingOrder _
      rw [← List.take_append_drop limit.toNat
        (List.insertionSort pendingOrder (st.rows.filter eligibleForRetry))]
        at hnsort hpair
      have hdropn : n ∈ (List.insertionSort pendingOrder
          (st.rows.filter eligibleForRetry)).drop limit.toNat := by
        rcases List.mem_append.mp hnsort with h | h
        · exact absurd h hnot
        · exact h
      exact (List.pairwise_append.mp hpair).2.2 m hm n hdropn
  · have hdef : get_pending_notifications st limit
        = List.insertionSort pendingOrder (st.rows.filter eligibleForRetry) := by
      unfold get_pending_notifications
      rw [if_neg hl]
    refine ⟨?_, ?_, ?_, ?_, ?_⟩
    · intro n hn
      rw [hdef] at hn
      have h2 := (List.mem_insertionSort pendingOrder).mp hn
      exact ⟨(List.mem_filter.mp h2).1, (List.mem_filter.mp h2).2⟩
    · rw [hdef, if_neg hl, (List.perm_insertionSort pendingOrder _).length_eq]
    · rw [hdef]
      exact List.sorted_insertionSort pendingOrder _
    · intro n hn he _
      rw [hdef]
      exact (List.mem_insertionSort pendingOrder).mpr (List.mem_filter.mpr ⟨hn, he⟩)
    · intro n hn he hnot
      rw [hdef] at hnot
      exact absurd
        ((List.mem_insertionSort pendingOrder).mpr (List.mem_filter.mpr ⟨hn, he⟩)) hnot

theorem C4_pending_selection_amended_witness :
    (∀ n ∈ get_pending_notifications c4Store 5,
        n ∈ c4Store.rows ∧ eligibleForRetry n = true) ∧
    (get_pending_notifications c4Store 5).length
      = (if 0 < (5 : Int) then
          min (5 : Int).toNat (c4Store.rows.filter eligibleForRetry).length
         else (c4Store.rows.filter eligibleForRetry).length) ∧
    List.Pairwise pendingOrder (get_pending_notifications c4Store 5) ∧
    (∀ n ∈ c4Store.rows, eligibleForRetry n = true →
      (¬ 0 < (5 : Int) ∨ (c4Store.rows.filter eligibleForRetry).length ≤ (5 : Int).toNat) →
      n ∈ get_pending_notifications c4Store 5) ∧
    (∀ n ∈ c4Store.rows, eligibleForRetry n = true →
      n ∉ get_pending_notifications c4Store 5 →
      ∀ m ∈ get_pending_notifications c4Store 5, pendingOrder m n) :=
  C4_pending_selection_amended c4Store 5

/-- Claim C5 counterexample: the channel raises an exception with message
"boom"; the claim says the resulting FAILED record carries that
exception's message, but the record carries the generic
"Failed to send notification" instead (the raise is swallowed into a bare
False inside _send_notification_async, so send_notification cannot see
the message). -/
theorem C5_exception_message_counterexample :
    ((sendNotification noStoreFailure emptyStore sampleRequest
        (ChannelResult.exc "boom") 3).2.map (fun r => (r.status, r.error_message)))
      = some (NotificationStatus.failed, some "Failed to send notification") ∧
    some "Failed to send notification" ≠ some "boom" := by
  exact ⟨rfl, by simp⟩

/-- Claim C5 (amended): for a validated request within the
NotificationCreate schema bounds, any exception raised by the channel or
renderer during the delivery attempt is caught and recorded as a FAILED
record (returned to the caller, never propagated), but the record carries
the generic message "Failed to send notification", not the exception's
own message; and a request carrying context_data never produces a record
at all — its create dies on the unserialized dict before any delivery
attempt. -/
theorem C5_exceptions_absorbed (st : Store) (req : NotificationRequest) (msg : String)
    (t : Nat) (hwf : st.wf) (hrej : createSchemaRejects req = false) :
    (req.context_data = none →
      ∃ r st', sendNotification noStoreFailure st req (ChannelResult.exc msg) t
          = (st', some r) ∧
        r.status = .failed ∧ r.failed_at = some t ∧
        r.error_message = some "Failed to send notification") ∧
    (req.context_data.isSome = true →
      (sendNotification noStoreFailure st req (ChannelResult.exc msg) t).2 = none) := by
  constructor
  · intro hctx
    obtain ⟨r, st', heq, -, -, -, -, -, -, hfail⟩ :=
      sendNotification_noFail st req (ChannelResult.exc msg) t hwf hrej hctx
    obtain ⟨h1, h2, h3, -⟩ := hfail rfl
    exact ⟨r, st', heq, h1, h2, h3⟩
  · intro hctx
    exact (sendNotification_none_iff _ _ _ _ _).mpr (Or.inr (Or.inl hctx))

theorem C5_exceptions_absorbed_witness :
    emptyStore.wf ∧ createSchemaRejects sampleRequest = false ∧
    ((sampleRequest.context_data = none →
      ∃ r st', sendNotification noStoreFailure emptyStore sampleRequest
          (ChannelResult.exc "boom2") 3 = (st', some r) ∧
        r.status = .failed ∧ r.failed_at = some 3 ∧
        r.error_message = some "Failed to send notification") ∧
     (sampleRequest.context_data.isSome = true →
      (sendNotification noStoreFailure emptyStore sampleRequest
          (ChannelResult.exc "boom2") 3).2 = none)) :=
  ⟨emptyStore_wf, by decide,
    C5_exceptions_absorbed emptyStore sampleRequest "boom2" 3 emptyStore_wf (by decide)⟩

/-- A validated, schema-conforming request that carries context_data, as
any templated send does. -/
def ctxRequest : NotificationRequest :=
  { sampleRequest with template_name := some "welcome", context_data := some "ctx dict" }

/-- Claim C6 counterexample: store-layer failure is NOT the only error
class that leaves the caller without a record.  With a perfectly healthy
store (no injected failure) and no delivery failure (the channel would
return true), a validated request that carries context_data yields no
record: the service binds the unserialized dict to the Text column, so
create raises and send returns None. -/
theorem C6_no_record_with_healthy_store_counterexample :
    createSchemaRejects ctxRequest = false ∧
    ctxRequest.context_data.isSome = true ∧
    sendNotification noStoreFailure emptyStore ctxRequest (ChannelResult.ok true) 2
      = (emptyStore, none) := by
  exact ⟨rfl, rfl, rfl⟩

/-- Claim C6 (amended): the caller gets no record exactly when the
attempt died outside the delivery path — an injected store failure on the
executed path, OR one of the dispatcher's own deterministic defects: the
pydantic NotificationCreate rejection of an over-255-character
recipient/subject/template_name, or the dict-to-Text bind error raised by
create whenever context_data is present.  In every no-record case the
durable store is unchanged, and for a persistable request with a healthy
store every delivery-related failure still yields a FAILED record to the
caller. -/
theorem C6_no_record_paths (failAt : StoreOp → Bool) (st : Store)
    (req : NotificationRequest) (ch : ChannelResult) (t : Nat) (hwf : st.wf) :
    ((sendNotification failAt st req ch t).2 = none ↔
      (createSchemaRejects req = true ∨ req.context_data.isSome = true ∨
        failAt .createOp = true ∨
        (send_notification_async ch = true ∧ failAt .markSentOp = true) ∨
        (send_notification_async ch = false ∧ failAt .markFailedOp = true))) ∧
    ((sendNotification failAt st req ch t).2 = none →
      (sendNotification failAt st req ch t).1 = st) ∧
    (failAt = noStoreFailure → createSchemaRejects req = false →
      req.context_data = none →
      ∃ r st', sendNotification failAt st req ch t = (st', some r) ∧
        (send_notification_async ch = false →
          r.status = .failed ∧ r.error_message = some "Failed to send notification")) := by
  refine ⟨sendNotification_none_iff failAt st req ch t,
    sendNotification_none_store_unchanged failAt st req ch t, ?_⟩
  rintro rfl hrej hctx
  obtain ⟨r, st', heq, -, -, -, -, -, -, hfail⟩ :=
    sendNotification_noFail st req ch t hwf hrej hctx
  exact ⟨r, st', heq, fun hc => ⟨(hfail hc).1, (hfail hc).2.2.1⟩⟩

theorem C6_no_record_paths_witness :
    emptyStore.wf ∧
    (((sendNotification noStoreFailure emptyStore sampleRequest
          (ChannelResult.ok false) 2).2 = none ↔
        (createSchemaRejects sampleRequest = true ∨
          sampleRequest.context_data.isSome = true ∨
          noStoreFailure .createOp = true ∨
          (send_notification_async (ChannelResult.ok false) = true ∧
            noStoreFailure .markSentOp = true) ∨
          (send_notification_async (ChannelResult.ok false) = false ∧
            noStoreFailure .markFailedOp = true))) ∧
     ((sendNotification noStoreFailure emptyStore sampleRequest
          (ChannelResult.ok false) 2).2 = none →
       (sendNotification noStoreFailure emptyStore sampleRequest
          (ChannelResult.ok false) 2).1 = emptyStore) ∧
     (noStoreFailure = noStoreFailure → createSchemaRejects sampleRequest = false →
       sampleRequest.context_data = none →
       ∃ r st', sendNotification noStoreFailure emptyStore sampleRequest
           (ChannelResult.ok false) 2 = (st', some r) ∧
         (send_notification_async (ChannelResult.ok false) = false →
           r.status = .failed ∧
             r.error_message = some "Failed to send notification"))) :=
  ⟨emptyStore_wf, C6_no_record_paths noStoreFailure emptyStore sampleRequest
    (ChannelResult.ok false) 2 emptyStore_wf⟩

/-- Claim C7 (code bug): the fan-out over 2 recipients and 2 channels is
claimed (and specified) to produce exactly 4 records, one per pair,
priority HIGH, template "alert_notification".  The code produces ZERO
records: every pair passes context=alert_data — a dict — so every pair's
create raises on the unserialized dict bound to the Text column, the
loop's try/except swallows each raise (the remaining pairs are still
attempted, fruitlessly), and the function returns an empty list with the
store untouched.  No per-pair request is rejected by the schema
(createSchemaRejects is false for both shapes), so the loss is entirely
the context_data bind error. -/
theorem C7_alert_fanout_returns_no_records :
    createSchemaRejects (alertRequest .email "admin@example.com"
      (some "Temperature Alert") "ctx dict" (some 1)) = false ∧
    createSchemaRejects (alertRequest .sms "+256700000000"
      (some "Temperature Alert") "ctx dict" (some 1)) = false ∧
    (send_alert_notification (fun _ _ => noStoreFailure) (fun _ _ => ChannelResult.ok true)
        emptyStore (some "Temperature Alert") "ctx dict" (some 1)
        ["admin@example.com", "+256700000000"]
        [NotificationType.email, NotificationType.sms] 0)
      = (emptyStore, []) := by
  exact ⟨rfl, rfl, rfl⟩

end LifeLineICT
